import Mathlib

/-!
# Playbooks watcher plugin: activation and HTTP handlers

A shallow embedding of `server/plugin.go`.  The plugin talks to three
collaborators that live outside the repository: the host (bot management,
key-value store, configuration, logging), the upstream REST transport and the
HTTP response writer.  Each of them is modelled as an explicit record of
responses, and every function of the plugin returns, next to its Go results,
the list of calls it issued, so that statements such as "mints exactly one
token" or "performs a single GET" are statements about that list.

A nil-pointer dereference is modelled by the result `none`.
-/

set_option autoImplicit false

namespace PlaybooksWatcher

/-! ## Go values -/

/-- Go `error` value; `Error` is the text returned by `err.Error()`. -/
structure GoError where
  Error : String
  deriving DecidableEq, Repr

/-- Go slice: `none` is the nil slice, `some xs` a non-nil slice holding `xs`
(possibly no element at all). -/
abbrev Slice (α : Type) := Option (List α)

/-- Element sequence of a slice; the nil slice has no element. -/
def Slice.elems {α : Type} : Slice α → List α
  | none => []
  | some xs => xs

/-- Go `len(s)`. -/
def Slice.len {α : Type} (s : Slice α) : Nat := s.elems.length

/-! ## Host model -/

/-- The `model.Bot` fields that `initializeAPI` fills in. -/
structure Bot where
  Username : String
  DisplayName : String
  Description : String
  deriving DecidableEq, Repr

/-- The `model.UserAccessToken` returned by `CreateAccessToken`. -/
structure UserAccessToken where
  Token : String
  UserId : String
  Description : String
  deriving DecidableEq, Repr

/-- Calls issued to the host during activation, in program order. -/
inductive HostCall where
  | ensureBot (bot : Bot)
  | kvGet (key : String)
  | createAccessToken (userID description : String)
  | kvSet (key value : String)
  | getConfig
  deriving DecidableEq, Repr

/-- The host as seen by `initializeAPI`.

* `ensureBot` is the outcome of `Bot.EnsureBot`;
* `kv` is the plugin key-value store read through `KV.Get` / written through
  `KV.Set`: `none` when no (or empty) data is stored under the key, `some v`
  when the stored data decodes to the string `v`; whatever bookkeeping the
  host does on its own behalf inside `EnsureBot` is not part of it;
* `kvGetErr key` is the error of a read of `key` (fetch or decode failure);
* `createAccessToken` is the outcome of `User.CreateAccessToken`;
* `kvSetErr key value` is the error of a write;
* `siteURL` is the target of `ServiceSettings.SiteURL` in the host
  configuration (the host always populates that pointer). -/
structure Host where
  ensureBot : Bot → Except GoError String
  kv : String → Option String
  kvGetErr : String → Option GoError
  createAccessToken : String → String → Except GoError UserAccessToken
  kvSetErr : String → String → Option GoError
  siteURL : String

/-- `KV.Get(key, &out)`: an error, or the value left in `out` afterwards.  A
key without data is not an error and leaves `out` as it was. -/
def Host.KVGet (h : Host) (key : String) (out : String) : Except GoError String :=
  match h.kvGetErr key with
  | some err => .error err
  | none =>
    match h.kv key with
    | none => .ok out
    | some v => .ok v

/-- `KV.Set(key, value)`: the store afterwards and the error returned.  A
failed write leaves the store as it was. -/
def Host.KVSet (h : Host) (key value : String) : Host × Option GoError :=
  match h.kvSetErr key value with
  | some err => (h, some err)
  | none => ({ h with kv := fun k => if k = key then some value else h.kv k }, none)

/-! ## Plugin state -/

def BOT_TOKEN_KEY_PREFIX : String := "bot-token-key-"

/-- The fields of `model.Client4` used here. -/
structure Client4 where
  URL : String
  APIURL : String
  AuthToken : String
  AuthType : String
  deriving DecidableEq, Repr

/-- `strings.TrimRight(s, "/")`. -/
def trimRightSlash (s : String) : String :=
  String.mk (s.data.reverse.dropWhile (fun c => c == '/')).reverse

/-- `model.NewAPIv4Client(url)`. -/
def NewAPIv4Client (url : String) : Client4 :=
  let u := trimRightSlash url
  { URL := u, APIURL := u ++ "/api/v4", AuthToken := "", AuthType := "" }

/-- `(*Client4).SetToken(token)`. -/
def Client4.SetToken (c : Client4) (token : String) : Client4 :=
  { c with AuthToken := token, AuthType := "BEARER" }

/-- The two handler methods a route can point to. -/
inductive Handler where
  | handleHello
  | handleRuns
  deriving DecidableEq, Repr

/-- A `mux.Router`, as the list of registered routes in registration order. -/
structure Router where
  routes : List (String × Handler)
  deriving DecidableEq, Repr

/-- `mux.NewRouter()`. -/
def NewRouter : Router := { routes := [] }

/-- `router.HandleFunc(path, f)`. -/
def Router.HandleFunc (r : Router) (path : String) (f : Handler) : Router :=
  { routes := r.routes ++ [(path, f)] }

/-- The `Plugin` struct.  `client` records whether `p.client` is non-nil;
`mmRESTClient` and `router` are pointers, `none` when nil.  The configuration
and its lock are not touched by the code embedded here. -/
structure Plugin where
  client : Bool
  mmRESTClient : Option Client4
  router : Option Router
  botID : String
  botToken : String
  deriving DecidableEq, Repr

/-- The zero-valued `Plugin` the process starts with. -/
def Plugin.zero : Plugin :=
  { client := false, mmRESTClient := none, router := none, botID := "", botToken := "" }

/-- Outcome of `initializeAPI`: the returned error (`none` for nil), the plugin
and host afterwards, and the host calls issued. -/
structure InitResult where
  err : Option GoError
  plugin : Plugin
  host : Host
  calls : List HostCall

/-- The bot `initializeAPI` asks the host to ensure. -/
def watcherBot : Bot :=
  { Username := "playbook-watcher", DisplayName := "Playbook Watcher", Description := "" }

/-- Lines 72-83 of `initializeAPI`: build the REST client from the host
configuration, register the two routes, return nil. -/
def initializeAPI.configure (h : Host) (p : Plugin) (calls : List HostCall) : InitResult :=
  let siteURL := h.siteURL
  let c := NewAPIv4Client siteURL
  let c := { c with APIURL := siteURL ++ "/plugins/playbooks/api/v0" }
  let c := c.SetToken p.botToken
  let p := { p with mmRESTClient := some c }
  let router := NewRouter
  let router := router.HandleFunc "/hello" Handler.handleHello
  let router := router.HandleFunc "/runs" Handler.handleRuns
  let p := { p with router := some router }
  { err := none, plugin := p, host := h, calls := calls ++ [HostCall.getConfig] }

/-- `(*Plugin).initializeAPI`. -/
def initializeAPI (h : Host) (p : Plugin) : InitResult :=
  let p := { p with client := true }
  match h.ensureBot watcherBot with
  | .error err => { err := some err, plugin := p, host := h, calls := [HostCall.ensureBot watcherBot] }
  | .ok botID =>
    let p := { p with botID := botID }
    let key := BOT_TOKEN_KEY_PREFIX ++ botID
    let calls := [HostCall.ensureBot watcherBot, HostCall.kvGet key]
    match h.KVGet key p.botToken with
    | .error err => { err := some err, plugin := p, host := h, calls := calls }
    | .ok stored =>
      let p := { p with botToken := stored }
      if p.botToken = "" then
        let calls := calls ++ [HostCall.createAccessToken botID ""]
        match h.createAccessToken botID "" with
        | .error err => { err := some err, plugin := p, host := h, calls := calls }
        | .ok token =>
          let p := { p with botToken := token.Token }
          -- both results of `KV.Set` are dropped
          let h := (h.KVSet key p.botToken).1
          initializeAPI.configure h p (calls ++ [HostCall.kvSet key p.botToken])
      else
        initializeAPI.configure h p calls

/-- `(*Plugin).OnActivate`. -/
def OnActivate (h : Host) (p : Plugin) : InitResult :=
  initializeAPI h p

/-- Number of `CreateAccessToken` calls in a call list. -/
def mintCount (calls : List HostCall) : Nat :=
  (calls.filter (fun c => match c with
    | HostCall.createAccessToken _ _ => true
    | _ => false)).length

/-- The `KV.Set` calls in a call list, as key-value pairs. -/
def kvWrites (calls : List HostCall) : List (String × String) :=
  calls.filterMap (fun c => match c with
    | HostCall.kvSet k v => some (k, v)
    | _ => none)

/-- The keys read through `KV.Get` in a call list. -/
def kvReads (calls : List HostCall) : List String :=
  calls.filterMap (fun c => match c with
    | HostCall.kvGet k => some k
    | _ => none)

/-! ## Upstream transport and response writer -/

/-- The request `DoAPIGet` hands to the transport. -/
structure UpstreamRequest where
  method : String
  url : String
  authType : String
  authToken : String
  etag : String
  deriving DecidableEq, Repr

/-- `PlaybookRunList`.
Modelled from the spec: the type declaration is not part of the file embedded
here; the spec describes it as an ordered sequence of runs together with
pagination metadata.  `ρ` is the opaque `PlaybookRun`, `μ` the metadata;
`Items` has the Go type `[]*PlaybookRun`, so an entry may be a nil pointer. -/
structure PlaybookRunList (ρ μ : Type) where
  pagination : μ
  Items : Slice (Option ρ)

/-- The upstream side of `getPlaybookRuns`:

* `newRequest method url` is the error of `http.NewRequestWithContext`, which
  refuses a method or URL it cannot parse before anything is sent;
* `doAPIRequest` is the outcome of sending a request that was built (an error,
  or the response body);
* `decode` is the outcome of decoding a body into a `PlaybookRunList`. -/
structure Upstream (ρ μ : Type) where
  newRequest : String → String → Option GoError
  doAPIRequest : UpstreamRequest → Except GoError String
  decode : String → Except GoError (PlaybookRunList ρ μ)

/-- The request built by `(*Client4).DoAPIGet(ctx, url, etag)`: a GET of
`c.APIURL + url` carrying the client's credentials. -/
def Client4.apiGetRequest (c : Client4) (url etag : String) : UpstreamRequest :=
  { method := "GET", url := c.APIURL ++ url, authType := c.AuthType,
    authToken := c.AuthToken, etag := etag }

/-- `(*Client4).DoAPIGet(ctx, url, etag)`: the Go result (an error, or the
response body) and the requests sent.  A request that cannot be built is
reported without anything being sent; a request that was built is sent once. -/
def Client4.DoAPIGet {ρ μ : Type} (c : Client4) (up : Upstream ρ μ) (url etag : String) :
    Except GoError String × List UpstreamRequest :=
  let req := c.apiGetRequest url etag
  match up.newRequest req.method req.url with
  | some err => (.error err, [])
  | none => (up.doAPIRequest req, [req])

/-- One line handed to the host logging sink. -/
structure LogEntry where
  msg : String
  keyValuePairs : List String
  deriving DecidableEq, Repr

/-- The inbound `*http.Request`. -/
structure Request where
  Method : String
  Path : String
  RawQuery : String
  Header : List (String × String)
  Body : String
  deriving DecidableEq, Repr

/-- The `http.ResponseWriter`, recording what the handler does to it:
the header map, the status line once written, the bytes handed to `Write`.
`writeErr` is the error `Write` reports back. -/
structure ResponseWriter where
  header : List (String × String)
  status : Option Nat
  body : String
  writeErr : Option GoError
  deriving DecidableEq, Repr

/-- The writer a handler receives: nothing set, nothing written. -/
def ResponseWriter.fresh (writeErr : Option GoError) : ResponseWriter :=
  { header := [], status := none, body := "", writeErr := writeErr }

/-- `w.Header().Set(key, value)` for a key in canonical form: replaces the
values under `key`. -/
def ResponseWriter.headerSet (w : ResponseWriter) (key value : String) : ResponseWriter :=
  { w with header := (key, value) :: w.header.filter (fun kv => kv.1 != key) }

/-- `w.Header().Get(key)`. -/
def ResponseWriter.headerGet (w : ResponseWriter) (key : String) : Option String :=
  w.header.lookup key

/-- `w.Write(b)`: the first write sends status 200 unless a status was
written before. -/
def ResponseWriter.Write (w : ResponseWriter) (b : String) : ResponseWriter × Option GoError :=
  let status := match w.status with
    | none => 200
    | some s => s
  ({ w with status := some status, body := w.body ++ b }, w.writeErr)

/-! ## JSON encoding of the run slice -/

/-- The loop of `encoding/json` over the elements of a slice: a comma before
every element but the first (`i` is the index of the head of the list), then
the element. -/
def arrayEncodeFrom {α : Type} (elemEnc : α → String) : Nat → List α → String → String
  | _, [], buf => buf
  | i, x :: xs, buf =>
    let buf := if i > 0 then buf ++ "," else buf
    arrayEncodeFrom elemEnc (i + 1) xs (buf ++ elemEnc x)

/-- Encoding of a `*PlaybookRun`: `null` for a nil pointer, else the encoding
`enc` of the run it points to. -/
def ptrEncode {ρ : Type} (enc : ρ → String) : Option ρ → String
  | none => "null"
  | some r => enc r

/-- `json.Marshal(runs)` for `runs : []*PlaybookRun`: `null` for the nil
slice, else the bracketed elements.  `enc` is the encoding of one
`PlaybookRun`, a type declared outside the file embedded here; it is taken to
succeed on every run, so the error result that `handleRuns` drops is nil. -/
def jsonMarshal {ρ : Type} (enc : ρ → String) : Slice (Option ρ) → String
  | none => "null"
  | some xs => arrayEncodeFrom (ptrEncode enc) 0 xs "[" ++ "]"

/-- A JSON array text with the given element texts, in the given order. -/
def jsonArray (elems : List String) : String :=
  "[" ++ ",".intercalate elems ++ "]"

/-! ## Handlers -/

/-- Outcome of `getPlaybookRuns`: the two Go results, the log lines written,
the `DoAPIGet` calls made (relative path and etag) and the requests sent
upstream by them. -/
structure RunsResult (ρ : Type) where
  runs : Slice (Option ρ)
  err : Option GoError
  logs : List LogEntry
  apiGets : List (String × String)
  requests : List UpstreamRequest

/-- `p.client.Log.Error(msg)`; `none` when `p.client` is nil. -/
def Plugin.clientLogError (p : Plugin) (msg : String) : Option (List LogEntry) :=
  if p.client then some [{ msg := msg, keyValuePairs := [] }] else none

/-- `(*Plugin).getPlaybookRuns`; `none` is a nil-pointer dereference. -/
def getPlaybookRuns {ρ μ : Type} (up : Upstream ρ μ) (p : Plugin) : Option (RunsResult ρ) :=
  match p.mmRESTClient with
  | none => none
  | some c =>
    let get := c.DoAPIGet up "/runs" ""
    match get.1 with
    | .error err =>
      match p.clientLogError err.Error with
      | none => none
      | some logs =>
        some { runs := none, err := some err, logs := logs, apiGets := [("/runs", "")],
               requests := get.2 }
    | .ok body =>
      match up.decode body with
      | .error err =>
        match p.clientLogError err.Error with
        | none => none
        | some logs =>
          some { runs := none, err := some err, logs := logs, apiGets := [("/runs", "")],
                 requests := get.2 }
      | .ok runList =>
        some { runs := runList.Items, err := none, logs := [], apiGets := [("/runs", "")],
               requests := get.2 }

/-- Outcome of a handler: the writer afterwards, the log lines written and the
upstream requests issued. -/
structure HandlerResult where
  writer : ResponseWriter
  logs : List LogEntry
  requests : List UpstreamRequest
  deriving DecidableEq, Repr

/-- `p.API.LogError(msg, "err", err.Error())` when `err` is non-nil. -/
def logIfErr (msg : String) (err : Option GoError) : List LogEntry :=
  match err with
  | none => []
  | some e => [{ msg := msg, keyValuePairs := ["err", e.Error] }]

/-- `(*Plugin).handleHello`. -/
def handleHello (_p : Plugin) (w : ResponseWriter) (_r : Request) : HandlerResult :=
  let (w, err) := w.Write "Hello World!"
  { writer := w, logs := logIfErr "Failed to write hello world" err, requests := [] }

/-- `(*Plugin).handleRuns`; `none` is a nil-pointer dereference. -/
def handleRuns {ρ μ : Type} (up : Upstream ρ μ) (enc : ρ → String) (p : Plugin)
    (w : ResponseWriter) (_r : Request) : Option HandlerResult :=
  match getPlaybookRuns up p with
  | none => none
  | some res =>
    let logs := res.logs ++ logIfErr "Failed to get playbook runs" res.err
    let responseJSON := jsonMarshal enc res.runs
    let w := w.headerSet "Content-Type" "application/json"
    let (w, err) := w.Write responseJSON
    some { writer := w, logs := logs ++ logIfErr "Failed to write playbook runs" err,
           requests := res.requests }

/-! ## Concrete collaborators used to instantiate the statements -/

/-- A host that ensures the bot `bot1`, holds `stored` under that bot's token
key and nothing elsewhere, mints the token `minted`, answers every write with
`setErr`, and is configured with the site URL `https://x.example`. -/
def exampleHost (stored : Option String) (minted : String) (setErr : Option GoError) : Host :=
  { ensureBot := fun _ => .ok "bot1"
    kv := fun k => if k = "bot-token-key-bot1" then stored else none
    kvGetErr := fun _ => none
    createAccessToken := fun userID description =>
      .ok { Token := minted, UserId := userID, Description := description }
    kvSetErr := fun _ _ => setErr
    siteURL := "https://x.example" }

/-- A host on which one of the three checked calls fails with `boom`:
`EnsureBot` when `stage = 0`, the read of the token when `stage = 1`,
`CreateAccessToken` otherwise. -/
def failingHost (stage : Nat) : Host :=
  { ensureBot := fun _ => if stage = 0 then .error { Error := "boom" } else .ok "bot1"
    kv := fun _ => none
    kvGetErr := fun _ => if stage = 1 then some { Error := "boom" } else none
    createAccessToken := fun _ _ => .error { Error := "boom" }
    kvSetErr := fun _ _ => none
    siteURL := "https://x.example" }

/-- An activated plugin talking to `https://x.example`. -/
def examplePlugin : Plugin :=
  (initializeAPI (exampleHost (some "tok") "fresh" none) Plugin.zero).plugin

/-- The host of `examplePlugin`, configured with the site URL `siteURL`. -/
def exampleHostAt (siteURL : String) : Host :=
  { exampleHost (some "tok") "fresh" none with siteURL := siteURL }

/-- Request building for the examples: a URL on the host name `x y`, which
holds a space, is refused; any other URL is accepted. -/
def exampleNewRequest (_method url : String) : Option GoError :=
  if "http://x y".data.isPrefixOf url.data then
    some { Error := "invalid character in host name" }
  else none

/-- An upstream that builds requests as `exampleNewRequest` does, whose
transport answers `resp` to every request and whose decoder answers `dec` to
every body; runs are plain strings. -/
def exampleUpstream (resp : Except GoError String)
    (dec : Except GoError (PlaybookRunList String Unit)) : Upstream String Unit :=
  { newRequest := exampleNewRequest
    doAPIRequest := fun _ => resp
    decode := fun _ => dec }

/-- A request for the examples. -/
def exampleRequest : Request :=
  { Method := "GET", Path := "/runs", RawQuery := "", Header := [], Body := "" }

/-! ## Paths through `initializeAPI` -/

theorem initializeAPI_ensureBot_error {h : Host} {p : Plugin} {e : GoError}
    (hb : h.ensureBot watcherBot = .error e) :
    initializeAPI h p =
      { err := some e, plugin := { p with client := true }, host := h,
        calls := [HostCall.ensureBot watcherBot] } := by
  simp only [initializeAPI, hb]

theorem initializeAPI_kvGet_error {h : Host} {p : Plugin} {b : String} {e : GoError}
    (hb : h.ensureBot watcherBot = .ok b)
    (hg : h.KVGet (BOT_TOKEN_KEY_PREFIX ++ b) p.botToken = .error e) :
    initializeAPI h p =
      { err := some e, plugin := { p with client := true, botID := b }, host := h,
        calls := [HostCall.ensureBot watcherBot, HostCall.kvGet (BOT_TOKEN_KEY_PREFIX ++ b)] } := by
  simp only [initializeAPI, hb, hg]

theorem initializeAPI_mint_error {h : Host} {p : Plugin} {b : String} {e : GoError}
    (hb : h.ensureBot watcherBot = .ok b)
    (hg : h.KVGet (BOT_TOKEN_KEY_PREFIX ++ b) p.botToken = .ok "")
    (hm : h.createAccessToken b "" = .error e) :
    initializeAPI h p =
      { err := some e, plugin := { p with client := true, botID := b, botToken := "" }, host := h,
        calls := [HostCall.ensureBot watcherBot, HostCall.kvGet (BOT_TOKEN_KEY_PREFIX ++ b),
                  HostCall.createAccessToken b ""] } := by
  simp [initializeAPI, hb, hg, hm]

theorem initializeAPI_mint_ok {h : Host} {p : Plugin} {b : String} {tok : UserAccessToken}
    (hb : h.ensureBot watcherBot = .ok b)
    (hg : h.KVGet (BOT_TOKEN_KEY_PREFIX ++ b) p.botToken = .ok "")
    (hm : h.createAccessToken b "" = .ok tok) :
    initializeAPI h p =
      initializeAPI.configure (h.KVSet (BOT_TOKEN_KEY_PREFIX ++ b) tok.Token).1
        { p with client := true, botID := b, botToken := tok.Token }
        [HostCall.ensureBot watcherBot, HostCall.kvGet (BOT_TOKEN_KEY_PREFIX ++ b),
         HostCall.createAccessToken b "", HostCall.kvSet (BOT_TOKEN_KEY_PREFIX ++ b) tok.Token] := by
  simp [initializeAPI, hb, hg, hm]

theorem initializeAPI_stored {h : Host} {p : Plugin} {b t : String}
    (hb : h.ensureBot watcherBot = .ok b)
    (hg : h.KVGet (BOT_TOKEN_KEY_PREFIX ++ b) p.botToken = .ok t) (ht : t ≠ "") :
    initializeAPI h p =
      initializeAPI.configure h { p with client := true, botID := b, botToken := t }
        [HostCall.ensureBot watcherBot, HostCall.kvGet (BOT_TOKEN_KEY_PREFIX ++ b)] := by
  simp [initializeAPI, hb, hg, ht]

theorem KVGet_stored {h : Host} {key t out : String}
    (he : h.kvGetErr key = none) (hk : h.kv key = some t) :
    h.KVGet key out = .ok t := by
  simp [Host.KVGet, he, hk]

theorem KVGet_absent {h : Host} {key out : String}
    (he : h.kvGetErr key = none) (hk : h.kv key = none) :
    h.KVGet key out = .ok out := by
  simp [Host.KVGet, he, hk]

theorem KVGet_error {h : Host} {key out : String} {e : GoError}
    (he : h.kvGetErr key = some e) :
    h.KVGet key out = .error e := by
  simp [Host.KVGet, he]

theorem KVSet_kv_other (h : Host) (key value k : String) (hk : k ≠ key) :
    (h.KVSet key value).1.kv k = h.kv k := by
  unfold Host.KVSet
  cases h.kvSetErr key value <;> simp [hk]

theorem KVSet_kv_key {h : Host} {key value : String} (he : h.kvSetErr key value = none) :
    (h.KVSet key value).1.kv key = some value := by
  simp [Host.KVSet, he]

/-! ## Provisioning -/

/-- C1, as stated, fails when the minted token is the empty string: on a host
with nothing stored for `bot1` whose `CreateAccessToken` succeeds with the
token `""`, the first activation mints once and stores `""`, and a second
activation against the resulting store mints again. -/
theorem empty_token_is_minted_again :
    (exampleHost none "" none).kv (BOT_TOKEN_KEY_PREFIX ++ "bot1") = none ∧
    (initializeAPI (exampleHost none "" none) Plugin.zero).err = none ∧
    mintCount (initializeAPI (exampleHost none "" none) Plugin.zero).calls = 1 ∧
    (initializeAPI (exampleHost none "" none) Plugin.zero).host.kv
      (BOT_TOKEN_KEY_PREFIX ++ "bot1") = some "" ∧
    (initializeAPI (initializeAPI (exampleHost none "" none) Plugin.zero).host Plugin.zero).err
      = none ∧
    mintCount
      (initializeAPI (initializeAPI (exampleHost none "" none) Plugin.zero).host Plugin.zero).calls
      = 1 := by
  decide

/-- C1 (amended): on a plugin holding no token, with no (or an empty) value
stored under the key of bot `b`, an activation whose host calls succeed calls
`CreateAccessToken` exactly once and stores the returned token under that key
(whatever that token is);
when that token is not the empty string, any later activation against the
resulting store (whatever the plugin state, with `EnsureBot` and the read
succeeding) calls `CreateAccessToken` zero times. -/
theorem provisioning_mints_once_per_bot (h : Host) (p : Plugin) (b : String)
    (tok : UserAccessToken)
    (hbot : h.ensureBot watcherBot = .ok b)
    (hread : h.kvGetErr (BOT_TOKEN_KEY_PREFIX ++ b) = none)
    (hempty : h.kv (BOT_TOKEN_KEY_PREFIX ++ b) = none ∨ h.kv (BOT_TOKEN_KEY_PREFIX ++ b) = some "")
    (hp : p.botToken = "")
    (hmint : h.createAccessToken b "" = .ok tok)
    (hset : h.kvSetErr (BOT_TOKEN_KEY_PREFIX ++ b) tok.Token = none) :
    (initializeAPI h p).err = none ∧
    mintCount (initializeAPI h p).calls = 1 ∧
    kvWrites (initializeAPI h p).calls = [(BOT_TOKEN_KEY_PREFIX ++ b, tok.Token)] ∧
    (initializeAPI h p).host.kv (BOT_TOKEN_KEY_PREFIX ++ b) = some tok.Token ∧
    (tok.Token ≠ "" →
      ∀ (h2 : Host) (p2 : Plugin), h2.kv = (initializeAPI h p).host.kv →
        h2.ensureBot watcherBot = .ok b → h2.kvGetErr (BOT_TOKEN_KEY_PREFIX ++ b) = none →
        (initializeAPI h2 p2).err = none ∧ mintCount (initializeAPI h2 p2).calls = 0) := by
  have hg : h.KVGet (BOT_TOKEN_KEY_PREFIX ++ b) p.botToken = .ok "" := by
    rcases hempty with hk | hk
    · rw [KVGet_absent hread hk, hp]
    · rw [KVGet_stored hread hk]
  have hstore : (initializeAPI h p).host.kv (BOT_TOKEN_KEY_PREFIX ++ b) = some tok.Token := by
    rw [initializeAPI_mint_ok hbot hg hmint]
    exact KVSet_kv_key hset
  refine ⟨?_, ?_, ?_, hstore, ?_⟩
  · rw [initializeAPI_mint_ok hbot hg hmint]; rfl
  · rw [initializeAPI_mint_ok hbot hg hmint]
    simp [initializeAPI.configure, mintCount]
  · rw [initializeAPI_mint_ok hbot hg hmint]
    simp [initializeAPI.configure, kvWrites]
  · intro hne h2 p2 hkv hb2 hr2
    have hk2 : h2.kv (BOT_TOKEN_KEY_PREFIX ++ b) = some tok.Token := by rw [hkv, hstore]
    rw [initializeAPI_stored hb2 (KVGet_stored hr2 hk2) hne]
    simp [initializeAPI.configure, mintCount]

theorem provisioning_mints_once_per_bot_witness :
    mintCount (initializeAPI (exampleHost none "tok" none) Plugin.zero).calls = 1 ∧
    (initializeAPI (exampleHost none "tok" none) Plugin.zero).host.kv
      (BOT_TOKEN_KEY_PREFIX ++ "bot1") = some "tok" ∧
    mintCount
      (initializeAPI (initializeAPI (exampleHost none "tok" none) Plugin.zero).host
        Plugin.zero).calls = 0 :=
  have t := provisioning_mints_once_per_bot (exampleHost none "tok" none) Plugin.zero "bot1"
    { Token := "tok", UserId := "bot1", Description := "" }
    rfl rfl (Or.inl (by decide)) rfl rfl rfl
  ⟨t.2.1, t.2.2.2.1, (t.2.2.2.2 (by decide) _ Plugin.zero rfl rfl rfl).2⟩

/-- C2: when `EnsureBot` returns `b`, the read succeeds and a non-empty token
`t` is stored under the key of `b`, activation succeeds without calling
`CreateAccessToken`, without any `KV.Set` (the store is unchanged), and the
REST client carries exactly `t` as its token. -/
theorem stored_token_is_reused (h : Host) (p : Plugin) (b t : String)
    (hbot : h.ensureBot watcherBot = .ok b)
    (hread : h.kvGetErr (BOT_TOKEN_KEY_PREFIX ++ b) = none)
    (hkv : h.kv (BOT_TOKEN_KEY_PREFIX ++ b) = some t)
    (ht : t ≠ "") :
    (initializeAPI h p).err = none ∧
    mintCount (initializeAPI h p).calls = 0 ∧
    kvWrites (initializeAPI h p).calls = [] ∧
    (initializeAPI h p).host.kv = h.kv ∧
    (initializeAPI h p).plugin.botToken = t ∧
    (initializeAPI h p).plugin.mmRESTClient.map (fun c => c.AuthToken) = some t := by
  rw [initializeAPI_stored hbot (KVGet_stored hread hkv) ht]
  simp [initializeAPI.configure, mintCount, kvWrites, Client4.SetToken]

theorem stored_token_is_reused_witness :
    (exampleHost (some "tok") "fresh" none).kv (BOT_TOKEN_KEY_PREFIX ++ "bot1") = some "tok" ∧
    mintCount (initializeAPI (exampleHost (some "tok") "fresh" none) Plugin.zero).calls = 0 ∧
    kvWrites (initializeAPI (exampleHost (some "tok") "fresh" none) Plugin.zero).calls = [] ∧
    (initializeAPI (exampleHost (some "tok") "fresh" none) Plugin.zero).plugin.mmRESTClient.map
      (fun c => c.AuthToken) = some "tok" :=
  have t := stored_token_is_reused (exampleHost (some "tok") "fresh" none) Plugin.zero
    "bot1" "tok" rfl rfl (by decide) (by decide)
  ⟨by decide, t.2.1, t.2.2.1, t.2.2.2.2.2⟩

/-- C7: if `EnsureBot` fails, or the read of the token fails, or the token is
missing and `CreateAccessToken` fails, `OnActivate` returns that very error,
leaves the router and the REST client as they were (unset on a plugin that had
none), issues no `KV.Set` and leaves the store unchanged. -/
theorem activation_error_leaves_plugin_inactive (h : Host) (p : Plugin) (e : GoError)
    (hfail : h.ensureBot watcherBot = .error e ∨
      ∃ b, h.ensureBot watcherBot = .ok b ∧
        (h.kvGetErr (BOT_TOKEN_KEY_PREFIX ++ b) = some e ∨
          (h.KVGet (BOT_TOKEN_KEY_PREFIX ++ b) p.botToken = .ok "" ∧
            h.createAccessToken b "" = .error e))) :
    (OnActivate h p).err = some e ∧
    (OnActivate h p).plugin.router = p.router ∧
    (OnActivate h p).plugin.mmRESTClient = p.mmRESTClient ∧
    (OnActivate h p).host.kv = h.kv ∧
    kvWrites (OnActivate h p).calls = [] := by
  unfold OnActivate
  rcases hfail with hb | ⟨b, hb, hg | ⟨hg, hm⟩⟩
  · rw [initializeAPI_ensureBot_error hb]; simp [kvWrites]
  · rw [initializeAPI_kvGet_error hb (KVGet_error hg)]; simp [kvWrites]
  · rw [initializeAPI_mint_error hb hg hm]; simp [kvWrites]

theorem activation_error_leaves_plugin_inactive_witness :
    ((OnActivate (failingHost 0) Plugin.zero).err = some { Error := "boom" } ∧
      (OnActivate (failingHost 0) Plugin.zero).plugin.router = none ∧
      (OnActivate (failingHost 0) Plugin.zero).plugin.mmRESTClient = none) ∧
    ((OnActivate (failingHost 1) Plugin.zero).err = some { Error := "boom" } ∧
      (OnActivate (failingHost 1) Plugin.zero).plugin.router = none ∧
      (OnActivate (failingHost 1) Plugin.zero).plugin.mmRESTClient = none) ∧
    ((OnActivate (failingHost 2) Plugin.zero).err = some { Error := "boom" } ∧
      (OnActivate (failingHost 2) Plugin.zero).plugin.router = none ∧
      (OnActivate (failingHost 2) Plugin.zero).plugin.mmRESTClient = none) :=
  have t0 := activation_error_leaves_plugin_inactive (failingHost 0) Plugin.zero
    { Error := "boom" } (Or.inl rfl)
  have t1 := activation_error_leaves_plugin_inactive (failingHost 1) Plugin.zero
    { Error := "boom" } (Or.inr ⟨"bot1", rfl, Or.inl rfl⟩)
  have t2 := activation_error_leaves_plugin_inactive (failingHost 2) Plugin.zero
    { Error := "boom" } (Or.inr ⟨"bot1", rfl, Or.inr ⟨rfl, rfl⟩⟩)
  ⟨⟨t0.1, t0.2.1, t0.2.2.1⟩, ⟨t1.1, t1.2.1, t1.2.2.1⟩, ⟨t2.1, t2.2.1, t2.2.2.1⟩⟩

/-- C8 at the failing input: the host has no token for `bot1`, mints `tok`,
and refuses the write with the error `kv down`.  `initializeAPI` returns nil,
registers both routes and configures the client with `tok`, while nothing is
stored under the key. -/
theorem persist_failure_still_activates :
    (exampleHost none "tok" (some { Error := "kv down" })).kvSetErr
      (BOT_TOKEN_KEY_PREFIX ++ "bot1") "tok" = some { Error := "kv down" } ∧
    (initializeAPI (exampleHost none "tok" (some { Error := "kv down" })) Plugin.zero).err
      = none ∧
    (initializeAPI (exampleHost none "tok" (some { Error := "kv down" })) Plugin.zero).plugin.router
      = some { routes := [("/hello", Handler.handleHello), ("/runs", Handler.handleRuns)] } ∧
    kvWrites (initializeAPI (exampleHost none "tok" (some { Error := "kv down" })) Plugin.zero).calls
      = [(BOT_TOKEN_KEY_PREFIX ++ "bot1", "tok")] ∧
    (initializeAPI (exampleHost none "tok" (some { Error := "kv down" })) Plugin.zero).host.kv
      (BOT_TOKEN_KEY_PREFIX ++ "bot1") = none := by
  decide

/-- C9: when `EnsureBot` returns `b`, activation reads exactly the key
`"bot-token-key-" ++ b`; it issues either no write at all or the single write
of the minted token under that same key, and it does issue that write whenever
it mints; a successful write leaves the minted token under the key; every
other key of the store keeps its value. -/
theorem token_key_frame (h : Host) (p : Plugin) (b : String)
    (hbot : h.ensureBot watcherBot = .ok b) :
    BOT_TOKEN_KEY_PREFIX ++ b = "bot-token-key-" ++ b ∧
    kvReads (initializeAPI h p).calls = ["bot-token-key-" ++ b] ∧
    (kvWrites (initializeAPI h p).calls = [] ∨
      ∃ tok, h.createAccessToken b "" = .ok tok ∧
        kvWrites (initializeAPI h p).calls = [("bot-token-key-" ++ b, tok.Token)]) ∧
    (∀ tok, h.KVGet ("bot-token-key-" ++ b) p.botToken = .ok "" →
      h.createAccessToken b "" = .ok tok →
      kvWrites (initializeAPI h p).calls = [("bot-token-key-" ++ b, tok.Token)] ∧
      (h.kvSetErr ("bot-token-key-" ++ b) tok.Token = none →
        (initializeAPI h p).host.kv ("bot-token-key-" ++ b) = some tok.Token)) ∧
    (∀ k, k ≠ "bot-token-key-" ++ b → (initializeAPI h p).host.kv k = h.kv k) := by
  have hkey : BOT_TOKEN_KEY_PREFIX ++ b = "bot-token-key-" ++ b := rfl
  rw [← hkey]
  refine ⟨rfl, ?_⟩
  cases hg : h.KVGet (BOT_TOKEN_KEY_PREFIX ++ b) p.botToken with
  | error e =>
    rw [initializeAPI_kvGet_error hbot hg]
    simp [kvReads, kvWrites]
  | ok t =>
    by_cases ht : t = ""
    · subst ht
      cases hm : h.createAccessToken b "" with
      | error e =>
        rw [initializeAPI_mint_error hbot hg hm]
        simp [kvReads, kvWrites]
      | ok tok =>
        rw [initializeAPI_mint_ok hbot hg hm]
        refine ⟨by simp [initializeAPI.configure, kvReads], Or.inr ⟨tok, rfl, ?_⟩, ?_, ?_⟩
        · simp [initializeAPI.configure, kvWrites]
        · intro tok2 _ htok
          cases htok
          exact ⟨by simp [initializeAPI.configure, kvWrites], fun hs => KVSet_kv_key hs⟩
        · intro k hk
          exact KVSet_kv_other h _ _ k hk
    · rw [initializeAPI_stored hbot hg ht]
      refine ⟨by simp [initializeAPI.configure, kvReads], Or.inl ?_, ?_, ?_⟩
      · simp [initializeAPI.configure, kvWrites]
      · intro tok h0
        cases h0
        exact absurd rfl ht
      · intro k _
        rfl

theorem token_key_frame_witness :
    kvReads (initializeAPI (exampleHost none "tok" none) Plugin.zero).calls
      = ["bot-token-key-" ++ "bot1"] ∧
    kvWrites (initializeAPI (exampleHost none "tok" none) Plugin.zero).calls
      = [("bot-token-key-" ++ "bot1", "tok")] ∧
    (initializeAPI (exampleHost none "tok" none) Plugin.zero).host.kv "unrelated"
      = (exampleHost none "tok" none).kv "unrelated" :=
  have t := token_key_frame (exampleHost none "tok" none) Plugin.zero "bot1" rfl
  ⟨t.2.1,
   (t.2.2.2.1 { Token := "tok", UserId := "bot1", Description := "" } rfl rfl).1,
   t.2.2.2.2 "unrelated" (by decide)⟩

/-! ## JSON encoding -/

theorem intercalate_go_append (sep pre : String) (xs : List String) (acc : String) :
    String.intercalate.go (pre ++ acc) sep xs = pre ++ String.intercalate.go acc sep xs := by
  induction xs generalizing acc with
  | nil => rfl
  | cons x xs ih =>
    simp only [String.intercalate.go]
    rw [← ih, String.append_assoc, String.append_assoc, String.append_assoc]

theorem arrayEncodeFrom_succ {α : Type} (elemEnc : α → String) (i : Nat) (xs : List α)
    (buf : String) :
    arrayEncodeFrom elemEnc (i + 1) xs buf = String.intercalate.go buf "," (xs.map elemEnc) := by
  induction xs generalizing i buf with
  | nil => rfl
  | cons x xs ih =>
    simp only [arrayEncodeFrom, List.map_cons, String.intercalate.go]
    rw [if_pos (Nat.succ_pos i), ih]

/-- The encoder loop produces the bracketed, comma-separated element texts. -/
theorem jsonMarshal_some {ρ : Type} (enc : ρ → String) (xs : List (Option ρ)) :
    jsonMarshal enc (some xs) = jsonArray (xs.map (ptrEncode enc)) := by
  cases xs with
  | nil => simp [jsonMarshal, jsonArray, arrayEncodeFrom, String.intercalate]
  | cons x xs =>
    simp only [jsonMarshal, jsonArray, arrayEncodeFrom, List.map_cons, String.intercalate]
    rw [if_neg (Nat.lt_irrefl 0), arrayEncodeFrom_succ, intercalate_go_append]

/-! ## Fetching and relaying the runs -/

theorem DoAPIGet_unbuilt {ρ μ : Type} {up : Upstream ρ μ} {c : Client4} {url etag : String}
    {e : GoError} (hb : up.newRequest "GET" (c.APIURL ++ url) = some e) :
    c.DoAPIGet up url etag = (.error e, []) := by
  simp [Client4.DoAPIGet, Client4.apiGetRequest, hb]

theorem DoAPIGet_built {ρ μ : Type} {up : Upstream ρ μ} {c : Client4} {url etag : String}
    (hb : up.newRequest "GET" (c.APIURL ++ url) = none) :
    c.DoAPIGet up url etag =
      (up.doAPIRequest (c.apiGetRequest url etag), [c.apiGetRequest url etag]) := by
  simp [Client4.DoAPIGet, Client4.apiGetRequest, hb]

theorem getPlaybookRuns_get_error {ρ μ : Type} {up : Upstream ρ μ} {p : Plugin}
    {c : Client4} {e : GoError}
    (hc : p.mmRESTClient = some c) (hcl : p.client = true)
    (hreq : (c.DoAPIGet up "/runs" "").1 = .error e) :
    getPlaybookRuns up p =
      some { runs := none, err := some e, logs := [{ msg := e.Error, keyValuePairs := [] }],
             apiGets := [("/runs", "")], requests := (c.DoAPIGet up "/runs" "").2 } := by
  simp [getPlaybookRuns, hc, hreq, Plugin.clientLogError, hcl]

theorem getPlaybookRuns_decode_error {ρ μ : Type} {up : Upstream ρ μ} {p : Plugin}
    {c : Client4} {body : String} {e : GoError}
    (hc : p.mmRESTClient = some c) (hcl : p.client = true)
    (hreq : (c.DoAPIGet up "/runs" "").1 = .ok body)
    (hdec : up.decode body = .error e) :
    getPlaybookRuns up p =
      some { runs := none, err := some e, logs := [{ msg := e.Error, keyValuePairs := [] }],
             apiGets := [("/runs", "")], requests := (c.DoAPIGet up "/runs" "").2 } := by
  simp [getPlaybookRuns, hc, hreq, hdec, Plugin.clientLogError, hcl]

theorem getPlaybookRuns_ok {ρ μ : Type} {up : Upstream ρ μ} {p : Plugin}
    {c : Client4} {body : String} {runList : PlaybookRunList ρ μ}
    (hc : p.mmRESTClient = some c)
    (hreq : (c.DoAPIGet up "/runs" "").1 = .ok body)
    (hdec : up.decode body = .ok runList) :
    getPlaybookRuns up p =
      some { runs := runList.Items, err := none, logs := [],
             apiGets := [("/runs", "")], requests := (c.DoAPIGet up "/runs" "").2 } := by
  simp [getPlaybookRuns, hc, hreq, hdec]

theorem initializeAPI_success {h : Host} {p : Plugin} (hok : (initializeAPI h p).err = none) :
    (initializeAPI h p).plugin.client = true ∧
    ∃ c, (initializeAPI h p).plugin.mmRESTClient = some c ∧
      c.APIURL = h.siteURL ++ "/plugins/playbooks/api/v0" ∧
      (initializeAPI h p).plugin.router =
        some { routes := [("/hello", Handler.handleHello), ("/runs", Handler.handleRuns)] } := by
  revert hok
  cases hb : h.ensureBot watcherBot with
  | error e => rw [initializeAPI_ensureBot_error hb]; simp
  | ok b =>
    cases hg : h.KVGet (BOT_TOKEN_KEY_PREFIX ++ b) p.botToken with
    | error e => rw [initializeAPI_kvGet_error hb hg]; simp
    | ok t =>
      by_cases ht : t = ""
      · subst ht
        cases hm : h.createAccessToken b "" with
        | error e => rw [initializeAPI_mint_error hb hg hm]; simp
        | ok tok =>
          rw [initializeAPI_mint_ok hb hg hm]
          intro _
          refine ⟨rfl, _, rfl, ?_, rfl⟩
          simp only [Client4.SetToken, Host.KVSet]
          cases h.kvSetErr (BOT_TOKEN_KEY_PREFIX ++ b) tok.Token <;> rfl
      · rw [initializeAPI_stored hb hg ht]
        intro _
        exact ⟨rfl, _, rfl, rfl, rfl⟩

/-- The three ways through `getPlaybookRuns` on a plugin whose clients are set. -/
theorem getPlaybookRuns_cases {ρ μ : Type} (up : Upstream ρ μ) (p : Plugin) (c : Client4)
    (hc : p.mmRESTClient = some c) (hcl : p.client = true) :
    (∃ e, (c.DoAPIGet up "/runs" "").1 = .error e ∧
      getPlaybookRuns up p =
        some { runs := none, err := some e, logs := [{ msg := e.Error, keyValuePairs := [] }],
               apiGets := [("/runs", "")], requests := (c.DoAPIGet up "/runs" "").2 }) ∨
    (∃ body e, (c.DoAPIGet up "/runs" "").1 = .ok body ∧
      up.decode body = .error e ∧
      getPlaybookRuns up p =
        some { runs := none, err := some e, logs := [{ msg := e.Error, keyValuePairs := [] }],
               apiGets := [("/runs", "")], requests := (c.DoAPIGet up "/runs" "").2 }) ∨
    (∃ body runList, (c.DoAPIGet up "/runs" "").1 = .ok body ∧
      up.decode body = .ok runList ∧
      getPlaybookRuns up p =
        some { runs := runList.Items, err := none, logs := [],
               apiGets := [("/runs", "")], requests := (c.DoAPIGet up "/runs" "").2 }) := by
  cases hreq : (c.DoAPIGet up "/runs" "").1 with
  | error e => exact Or.inl ⟨e, rfl, getPlaybookRuns_get_error hc hcl hreq⟩
  | ok body =>
    cases hdec : up.decode body with
    | error e => exact Or.inr (Or.inl ⟨body, e, rfl, hdec, getPlaybookRuns_decode_error hc hcl hreq hdec⟩)
    | ok runList => exact Or.inr (Or.inr ⟨body, runList, rfl, hdec, getPlaybookRuns_ok hc hreq hdec⟩)

/-- On a plugin whose clients are set, `getPlaybookRuns` returns, having made
one `DoAPIGet` call whose requests are the ones it sent. -/
theorem getPlaybookRuns_requests {ρ μ : Type} (up : Upstream ρ μ) (p : Plugin) (c : Client4)
    (hc : p.mmRESTClient = some c) (hcl : p.client = true) :
    ∃ res, getPlaybookRuns up p = some res ∧ res.apiGets = [("/runs", "")] ∧
      res.requests = (c.DoAPIGet up "/runs" "").2 := by
  rcases getPlaybookRuns_cases up p c hc hcl with ⟨e, _, hr⟩ | ⟨body, e, _, _, hr⟩ |
    ⟨body, runList, _, _, hr⟩ <;>
  exact ⟨_, hr, rfl, rfl⟩

/-- C3: on an activated plugin, when the upstream GET fails (the request
cannot be built or sending it fails) or its body fails to decode,
`handleRuns` still answers: status 200 on a writer whose status was not yet
written, `Content-Type: application/json`, and the body `null`, the encoding
of the nil run slice. -/
theorem upstream_failure_yields_null_200 {ρ μ : Type} (up : Upstream ρ μ) (enc : ρ → String)
    (p : Plugin) (c : Client4) (w : ResponseWriter) (r : Request) (e : GoError)
    (hc : p.mmRESTClient = some c) (hcl : p.client = true)
    (hfail : (c.DoAPIGet up "/runs" "").1 = .error e ∨
      ∃ body, (c.DoAPIGet up "/runs" "").1 = .ok body ∧ up.decode body = .error e)
    (hst : w.status = none) :
    ∃ res, handleRuns up enc p w r = some res ∧
      res.writer.status = some 200 ∧
      res.writer.headerGet "Content-Type" = some "application/json" ∧
      res.writer.body = w.body ++ "null" ∧
      jsonMarshal enc none = "null" := by
  have hruns : getPlaybookRuns up p =
      some { runs := none, err := some e, logs := [{ msg := e.Error, keyValuePairs := [] }],
             apiGets := [("/runs", "")], requests := (c.DoAPIGet up "/runs" "").2 } := by
    rcases hfail with hreq | ⟨body, hreq, hdec⟩
    · exact getPlaybookRuns_get_error hc hcl hreq
    · exact getPlaybookRuns_decode_error hc hcl hreq hdec
  refine ⟨_, by rw [handleRuns, hruns], ?_, ?_, ?_, rfl⟩
  · simp [ResponseWriter.Write, ResponseWriter.headerSet, hst]
  · simp [ResponseWriter.Write, ResponseWriter.headerSet, ResponseWriter.headerGet]
  · simp [ResponseWriter.Write, ResponseWriter.headerSet, jsonMarshal]

theorem upstream_failure_yields_null_200_witness :
    (handleRuns (exampleUpstream (.error { Error := "connection refused" })
        (.ok { pagination := (), Items := some [] }))
      (fun s => s) examplePlugin (ResponseWriter.fresh none) exampleRequest).map
        (fun res => (res.writer.status, res.writer.headerGet "Content-Type", res.writer.body))
      = some (some 200, some "application/json", "null") := by
  obtain ⟨res, hres, h1, h2, h3, _⟩ := upstream_failure_yields_null_200
    (exampleUpstream (.error { Error := "connection refused" })
      (.ok { pagination := (), Items := some [] }))
    (fun s => s) examplePlugin
    { URL := "https://x.example", APIURL := "https://x.example/plugins/playbooks/api/v0",
      AuthToken := "tok", AuthType := "BEARER" }
    (ResponseWriter.fresh none) exampleRequest { Error := "connection refused" }
    (by decide) (by decide) (Or.inl rfl) rfl
  rw [hres, Option.map_some', h1, h2, h3]
  rfl

/-- C4, as stated, fails for a run list whose `Items` is the nil slice (the
upstream body carries no item sequence): decoding succeeds, the item sequence
has 0 entries, and the body written is `null`, not the empty JSON array. -/
theorem nil_items_yield_null_not_array :
    Slice.len (PlaybookRunList.Items
      ({ pagination := (), Items := none } : PlaybookRunList String Unit)) = 0 ∧
    (handleRuns (exampleUpstream (.ok "\x7b\x7d") (.ok { pagination := (), Items := none }))
      (fun s => s) examplePlugin (ResponseWriter.fresh none) exampleRequest).map
        (fun res => (res.writer.status, res.writer.body))
      = some (some 200, "null") ∧
    jsonArray ([] : List String) = "[]" ∧
    "null" ≠ jsonArray ([] : List String) := by
  decide

/-- C4 (amended): on an activated plugin, when the upstream GET succeeds and
its body decodes to a run list, `handleRuns` answers status 200 (on a writer
whose status was not yet written) with `Content-Type: application/json`; when
the decoded `Items` is a non-nil slice of `N` entries the body is the JSON
array of the encodings of exactly those `N` entries in the same order (a nil
entry as `null`); when `Items` is the nil slice the body is `null`. -/
theorem runs_pass_through_in_order {ρ μ : Type} (up : Upstream ρ μ) (enc : ρ → String)
    (p : Plugin) (c : Client4) (w : ResponseWriter) (r : Request) (body : String)
    (runList : PlaybookRunList ρ μ)
    (hc : p.mmRESTClient = some c)
    (hreq : (c.DoAPIGet up "/runs" "").1 = .ok body)
    (hdec : up.decode body = .ok runList)
    (hst : w.status = none) :
    ∃ res, handleRuns up enc p w r = some res ∧
      res.writer.status = some 200 ∧
      res.writer.headerGet "Content-Type" = some "application/json" ∧
      (∀ (N : Nat) (xs : List (Option ρ)), runList.Items = some xs → xs.length = N →
        ∃ elems : List String, res.writer.body = w.body ++ jsonArray elems ∧
          elems.length = N ∧
          ∀ i : Nat, elems[i]? = (xs[i]?).map (ptrEncode enc)) ∧
      (runList.Items = none → res.writer.body = w.body ++ "null") := by
  refine ⟨_, by rw [handleRuns, getPlaybookRuns_ok hc hreq hdec], ?_, ?_, ?_, ?_⟩
  · simp [ResponseWriter.Write, ResponseWriter.headerSet, hst]
  · simp [ResponseWriter.Write, ResponseWriter.headerSet, ResponseWriter.headerGet]
  · intro N xs hxs hN
    refine ⟨xs.map (ptrEncode enc), ?_, by simp [hN], fun i => by simp⟩
    simp [ResponseWriter.Write, ResponseWriter.headerSet, hxs, jsonMarshal_some]
  · intro hnil
    simp [ResponseWriter.Write, ResponseWriter.headerSet, hnil, jsonMarshal]

theorem runs_pass_through_in_order_witness :
    (handleRuns
      (exampleUpstream (.ok "payload")
        (.ok { pagination := (), Items := some [some "1", none, some "3"] }))
      (fun s => s) examplePlugin (ResponseWriter.fresh none) exampleRequest).map
        (fun res => (res.writer.status, res.writer.body))
      = some (some 200, "[1,null,3]") := by
  obtain ⟨res, hres, h1, _, h3, _⟩ := runs_pass_through_in_order
    (exampleUpstream (.ok "payload")
      (.ok { pagination := (), Items := some [some "1", none, some "3"] }))
    (fun s => s) examplePlugin
    { URL := "https://x.example", APIURL := "https://x.example/plugins/playbooks/api/v0",
      AuthToken := "tok", AuthType := "BEARER" }
    (ResponseWriter.fresh none) exampleRequest "payload"
    { pagination := (), Items := some [some "1", none, some "3"] }
    (by decide) rfl rfl rfl
  obtain ⟨elems, hbody, hlen, hel⟩ := h3 3 [some "1", none, some "3"] rfl rfl
  have h0 := hel 0
  have h1e := hel 1
  have h2e := hel 2
  match elems, hlen, h0, h1e, h2e with
  | [a, b, d], _, h0, h1e, h2e =>
    simp [ptrEncode] at h0 h1e h2e
    subst h0 h1e h2e
    rw [hres, Option.map_some', h1, hbody]
    decide

/-- C5: `handleHello` hands exactly the 12 bytes `Hello World!` to the writer,
leaves the header map as it was, issues no upstream request, and sends status
200 on a fresh writer; its outcome is the same for any two requests and any
two plugin states. -/
theorem handleHello_fixed_response (p₁ p₂ : Plugin) (r₁ r₂ : Request) (w : ResponseWriter)
    (writeErr : Option GoError) :
    handleHello p₁ w r₁ = handleHello p₂ w r₂ ∧
    (handleHello p₁ w r₁).writer.body = w.body ++ "Hello World!" ∧
    (handleHello p₁ w r₁).writer.header = w.header ∧
    (handleHello p₁ w r₁).requests = [] ∧
    (handleHello p₁ (ResponseWriter.fresh writeErr) r₁).writer.status = some 200 ∧
    (handleHello p₁ (ResponseWriter.fresh writeErr) r₁).writer.body = "Hello World!" ∧
    (handleHello p₁ (ResponseWriter.fresh writeErr) r₁).writer.header = [] ∧
    "Hello World!".utf8ByteSize = 12 := by
  refine ⟨rfl, rfl, rfl, rfl, rfl, ?_, rfl, by decide⟩
  simp [handleHello, ResponseWriter.Write, ResponseWriter.fresh]

/-- C6, as stated, fails when the site URL does not make a URL the HTTP
library accepts: with the site URL `http://x y` activation succeeds and the
API base is `http://x y/plugins/playbooks/api/v0`, but the request for
`/runs` under it cannot be built, so `getPlaybookRuns` returns that error and
no GET is issued. -/
theorem unparsable_site_url_issues_no_get :
    (exampleHostAt "http://x y").siteURL = "http://x y" ∧
    (initializeAPI (exampleHostAt "http://x y") Plugin.zero).err = none ∧
    (initializeAPI (exampleHostAt "http://x y") Plugin.zero).plugin.mmRESTClient.map
      (fun c => c.APIURL) = some "http://x y/plugins/playbooks/api/v0" ∧
    exampleNewRequest "GET" "http://x y/plugins/playbooks/api/v0/runs"
      = some { Error := "invalid character in host name" } ∧
    (getPlaybookRuns
      (exampleUpstream (.ok "payload") (.ok { pagination := (), Items := some [] }))
      (initializeAPI (exampleHostAt "http://x y") Plugin.zero).plugin).map
        (fun res => (res.err, res.requests))
      = some (some { Error := "invalid character in host name" }, []) := by
  decide

/-- C6 (amended): after a successful `initializeAPI` the REST client's API
base is the host's site URL followed by `/plugins/playbooks/api/v0`, for every
site URL; `getPlaybookRuns` makes a single `DoAPIGet` call, for the relative
path `/runs`; when the request for the base followed by `/runs` can be built,
exactly one request is sent, a GET of that URL; when it cannot, none is. -/
theorem api_base_and_runs_path (h : Host) (p : Plugin)
    (hok : (initializeAPI h p).err = none) :
    ∃ c, (initializeAPI h p).plugin.mmRESTClient = some c ∧
      c.APIURL = h.siteURL ++ "/plugins/playbooks/api/v0" ∧
      ∀ (ρ μ : Type) (up : Upstream ρ μ),
        ∃ res, getPlaybookRuns up (initializeAPI h p).plugin = some res ∧
          res.apiGets = [("/runs", "")] ∧
          (up.newRequest "GET" (h.siteURL ++ "/plugins/playbooks/api/v0" ++ "/runs") = none →
            res.requests.map (fun q => (q.method, q.url)) =
              [("GET", h.siteURL ++ "/plugins/playbooks/api/v0" ++ "/runs")]) ∧
          (∀ e, up.newRequest "GET" (h.siteURL ++ "/plugins/playbooks/api/v0" ++ "/runs")
              = some e → res.requests = []) := by
  obtain ⟨hcl, c, hc, hurl, _⟩ := initializeAPI_success hok
  refine ⟨c, hc, hurl, fun ρ μ up => ?_⟩
  obtain ⟨res, hres, hcalls, hsent⟩ := getPlaybookRuns_requests up _ c hc hcl
  refine ⟨res, hres, hcalls, ?_, ?_⟩
  · intro hb
    rw [← hurl] at hb
    rw [hsent, DoAPIGet_built hb]
    simp [Client4.apiGetRequest, hurl]
  · intro e hb
    rw [← hurl] at hb
    rw [hsent, DoAPIGet_unbuilt hb]

theorem api_base_and_runs_path_witness :
    (exampleHost none "tok" none).siteURL = "https://x.example" ∧
    ∃ c, (initializeAPI (exampleHost none "tok" none) Plugin.zero).plugin.mmRESTClient = some c ∧
      c.APIURL = "https://x.example/plugins/playbooks/api/v0" ∧
      ∃ res, getPlaybookRuns
          (exampleUpstream (.ok "payload") (.ok { pagination := (), Items := some [] }))
          (initializeAPI (exampleHost none "tok" none) Plugin.zero).plugin = some res ∧
        res.requests.map (fun q => (q.method, q.url)) =
          [("GET", "https://x.example/plugins/playbooks/api/v0/runs")] := by
  obtain ⟨c, hc, hurl, hreq⟩ :=
    api_base_and_runs_path (exampleHost none "tok" none) Plugin.zero (by decide)
  obtain ⟨res, hres, _, hq, _⟩ := hreq String Unit
    (exampleUpstream (.ok "payload") (.ok { pagination := (), Items := some [] }))
  exact ⟨rfl, c, hc, by rw [hurl]; decide, res, hres, by rw [hq (by decide)]; decide⟩

/-- C10, as stated, fails when the request cannot be built: on a plugin
activated with the site URL `http://x y`, `getPlaybookRuns` returns a non-nil
error and the nil slice and logs once, but no GET at all is performed. -/
theorem unbuildable_request_performs_no_get :
    (getPlaybookRuns
      (exampleUpstream (.ok "payload") (.ok { pagination := (), Items := some [] }))
      (initializeAPI (exampleHostAt "http://x y") Plugin.zero).plugin).map
        (fun res => (res.runs, res.err, res.logs, res.requests.length))
      = some (none, some { Error := "invalid character in host name" },
          [{ msg := "invalid character in host name", keyValuePairs := [] }], 0) := by
  decide

/-- C10 (amended): on an activated plugin `getPlaybookRuns` returns, having
made exactly one `DoAPIGet` call for `/runs` (no retry); that call sends
exactly one GET when the request can be built and none when it cannot.  The
returned error is non-nil exactly when the call fails (the request cannot be
built, or sending it fails) or the body fails to decode; then the run slice is
nil, the error is the very error of the failing step and its message is the
single log line; otherwise nothing is logged and the decoded list's items are
returned. -/
theorem getPlaybookRuns_error_contract {ρ μ : Type} (up : Upstream ρ μ) (p : Plugin)
    (c : Client4) (hc : p.mmRESTClient = some c) (hcl : p.client = true) :
    ∃ res, getPlaybookRuns up p = some res ∧
      res.apiGets = [("/runs", "")] ∧
      (up.newRequest "GET" (c.APIURL ++ "/runs") = none →
        res.requests = [c.apiGetRequest "/runs" ""] ∧
        (c.apiGetRequest "/runs" "").method = "GET" ∧
        (c.DoAPIGet up "/runs" "").1 = up.doAPIRequest (c.apiGetRequest "/runs" "")) ∧
      (∀ e, up.newRequest "GET" (c.APIURL ++ "/runs") = some e →
        res.requests = [] ∧ (c.DoAPIGet up "/runs" "").1 = .error e) ∧
      (res.err ≠ none ↔
        ((∃ e, (c.DoAPIGet up "/runs" "").1 = .error e) ∨
          ∃ body e, (c.DoAPIGet up "/runs" "").1 = .ok body ∧ up.decode body = .error e)) ∧
      (∀ e, res.err = some e →
        res.runs = none ∧
        res.logs = [{ msg := e.Error, keyValuePairs := [] }] ∧
        ((c.DoAPIGet up "/runs" "").1 = .error e ∨
          ∃ body, (c.DoAPIGet up "/runs" "").1 = .ok body ∧ up.decode body = .error e)) ∧
      (res.err = none →
        res.logs = [] ∧
        ∃ body runList, (c.DoAPIGet up "/runs" "").1 = .ok body ∧
          up.decode body = .ok runList ∧ res.runs = runList.Items) := by
  have hbuilt : up.newRequest "GET" (c.APIURL ++ "/runs") = none →
      (c.DoAPIGet up "/runs" "").2 = [c.apiGetRequest "/runs" ""] ∧
      (c.apiGetRequest "/runs" "").method = "GET" ∧
      (c.DoAPIGet up "/runs" "").1 = up.doAPIRequest (c.apiGetRequest "/runs" "") := by
    intro hb
    rw [DoAPIGet_built hb]
    exact ⟨rfl, rfl, rfl⟩
  have hunbuilt : ∀ e, up.newRequest "GET" (c.APIURL ++ "/runs") = some e →
      (c.DoAPIGet up "/runs" "").2 = [] ∧ (c.DoAPIGet up "/runs" "").1 = .error e := by
    intro e hb
    rw [DoAPIGet_unbuilt hb]
    exact ⟨rfl, rfl⟩
  rcases getPlaybookRuns_cases up p c hc hcl with ⟨e, hreq, hr⟩ | ⟨body, e, hreq, hdec, hr⟩ |
    ⟨body, runList, hreq, hdec, hr⟩
  · refine ⟨_, hr, rfl, hbuilt, hunbuilt, ?_, ?_, ?_⟩
    · simp [hreq]
    · intro e2 he2
      simp only [Option.some.injEq] at he2
      subst he2
      exact ⟨rfl, rfl, Or.inl hreq⟩
    · intro hn; simp at hn
  · refine ⟨_, hr, rfl, hbuilt, hunbuilt, ?_, ?_, ?_⟩
    · simp [hreq, hdec]
    · intro e2 he2
      simp only [Option.some.injEq] at he2
      subst he2
      exact ⟨rfl, rfl, Or.inr ⟨body, hreq, hdec⟩⟩
    · intro hn; simp at hn
  · refine ⟨_, hr, rfl, hbuilt, hunbuilt, ?_, ?_, ?_⟩
    · simp [hreq, hdec]
    · intro e2 he2; simp at he2
    · intro _
      exact ⟨rfl, body, runList, hreq, hdec, rfl⟩

theorem getPlaybookRuns_error_contract_witness :
    (∃ res, getPlaybookRuns
        (exampleUpstream (.ok "payload") (.error { Error := "unexpected end of JSON input" }))
        examplePlugin = some res ∧
      res.apiGets.length = 1 ∧ res.requests.length = 1) ∧
    (getPlaybookRuns
      (exampleUpstream (.ok "payload") (.error { Error := "unexpected end of JSON input" }))
      examplePlugin).map (fun res => (res.runs, res.err, res.logs))
      = some (none, some { Error := "unexpected end of JSON input" },
          [{ msg := "unexpected end of JSON input", keyValuePairs := [] }]) :=
  have t := getPlaybookRuns_error_contract
    (exampleUpstream (.ok "payload") (.error { Error := "unexpected end of JSON input" }))
    examplePlugin
    { URL := "https://x.example", APIURL := "https://x.example/plugins/playbooks/api/v0",
      AuthToken := "tok", AuthType := "BEARER" }
    (by decide) (by decide)
  ⟨t.elim fun res hres =>
    ⟨res, hres.1, by rw [hres.2.1]; rfl, by rw [(hres.2.2.1 (by decide)).1]; rfl⟩, by decide⟩

end PlaybooksWatcher
